import Mathlib

/-!
# Pulsar connector: client wrapper, dispatch loop and converter

A shallow embedding of `src/puslar/client.go`, `src/puslar/connector.go` and
`src/puslar/converter.go`.

* Go maps are association lists with overwrite-on-insert; the order of the list
  stands for the order in which a `range` loop visits the map.
* The broker, the message handler and the operating system are collaborators:
  their answers are given by an `Env` record of response functions, and every
  call made to them is recorded, together with its answer, in a trace of
  `Event`s.
* A Go `error` is its message text; `nil` is `none`.
* A nil pointer or nil interface value is `none`; dereferencing it is the
  outcome `panic`.
-/

namespace Pulsar

/-! ## Data model -/

/-- A Go `error` value, identified with its message. -/
abbrev GoError := String

/-- A byte. -/
abbrev Byte := Fin 256

/-- A Go `[]byte`: `none` is the nil slice, `some []` the empty non-nil slice. -/
abbrev Bytes := Option (List Byte)

/-- Go `len` on a byte slice; the nil slice has length 0. -/
def Bytes.len : Bytes → Nat
  | none => 0
  | some bs => bs.length

/-- The `types.Message` of the application: the declaration is generated code
outside the sources, so only the fields the connector reads or writes are kept. -/
structure Message where
  Topic : String
  Key : String
  Payload : Bytes
  deriving DecidableEq, Repr

/-- The `pulsar.ProducerMessage` handed to a producer. The converter sets
`Payload` and `Key`; all other fields keep their zero value and are left out.
The type has no topic field. -/
structure ProducerMessage where
  Payload : Bytes
  Key : String
  deriving DecidableEq, Repr

/-- A received `pulsar.Message`, seen through the accessors the code calls:
`Topic()`, `Key()`, `Payload()`, `RedeliveryCount()` (a `uint32`) and
`ID().EntryID()`. -/
structure PulsarMessage where
  Topic : String
  Key : String
  Payload : Bytes
  RedeliveryCount : Nat
  EntryID : Int
  deriving DecidableEq, Repr

/-- Handle of a `pulsar.Producer`. -/
structure Producer where
  id : Nat
  deriving DecidableEq, Repr

/-- Handle of a `pulsar.Consumer`. -/
structure Consumer where
  id : Nat
  deriving DecidableEq, Repr

/-- Handle of the `pulsar.Client` connection. -/
structure Conn where
  id : Nat
  deriving DecidableEq, Repr

/-- Subscription type of `pulsar.ConsumerOptions`. -/
inductive SubscriptionType where
  | Exclusive
  | Shared
  | Failover
  | KeyShared
  deriving DecidableEq, Repr

/-- The fields of `pulsar.ConsumerOptions` that `NewConsumer` sets. -/
structure ConsumerOptions where
  Topic : String
  SubscriptionName : String
  Type_ : SubscriptionType
  Name : String
  deriving DecidableEq, Repr

/-- Compression type of `pulsar.ProducerOptions`. -/
inductive CompressionType where
  | NoCompression
  | LZ4
  | ZLib
  | ZSTD
  deriving DecidableEq, Repr

/-- The fields of `pulsar.ProducerOptions` that `New` sets. Durations are in
nanoseconds (`time.Duration` is an `int64`), sizes are `uint`. -/
structure ProducerOptions where
  Topic : String
  Name : String
  SendTimeout : Int
  CompressionType : CompressionType
  BatchingMaxPublishDelay : Int
  BatchingMaxMessages : Nat
  BatchingMaxSize : Nat
  deriving DecidableEq, Repr

/-- One entry of `config.ProducersConfig`. -/
structure ProducerConfig where
  Topic : String
  BatchingMaxPublishDelay : Nat
  BatchingMaxMessages : Nat
  BatchingMaxSize : Nat
  deriving DecidableEq, Repr

/-- The `configs.PulsarConfig` read by `New`. -/
structure PulsarConfig where
  URL : String
  ProducersConfig : List ProducerConfig
  deriving DecidableEq, Repr

/-- Answer of `client.Subscribe`. -/
inductive SubscribeResult where
  | ok (consumer : Consumer)
  | failed (err : GoError)
  deriving DecidableEq, Repr

/-- Answer of `pulsar.NewClient`. -/
inductive ConnectResult where
  | ok (conn : Conn)
  | failed (err : GoError)
  deriving DecidableEq, Repr

/-- Answer of `client.CreateProducer`. -/
inductive CreateProducerResult where
  | ok (producer : Producer)
  | failed (err : GoError)
  deriving DecidableEq, Repr

/-- Severity of a log call. -/
inductive Level where
  | debug
  | info
  | error
  deriving DecidableEq, Repr

/-- An argument of a log call. -/
inductive LogArg where
  | str (s : String)
  | bytes (b : Bytes)
  | int (i : Int)
  | err (e : GoError)
  deriving DecidableEq, Repr

/-- A call to a collaborator, with the answer it gave. -/
inductive Event where
  | log (level : Level) (format : String) (args : List LogArg)
  | newClient (url : String) (res : ConnectResult)
  | createProducer (opts : ProducerOptions) (res : CreateProducerResult)
  | send (p : Producer) (msg : ProducerMessage) (res : Option GoError)
  | subscribe (opts : ConsumerOptions) (res : SubscribeResult)
  | receive (c : Consumer) (msg : Option PulsarMessage) (err : Option GoError)
  | handle (msg : PulsarMessage) (res : Option GoError)
  | ack (c : Consumer) (msg : PulsarMessage) (res : Option GoError)
  | flush (p : Producer) (res : Option GoError)
  | closeProducer (p : Producer)
  | closeConsumer (c : Consumer)
  | closeClient (conn : Conn)
  deriving DecidableEq, Repr

/-- The collaborators: what the broker and the operating system answer. -/
structure Env where
  hostname : String
  newClient : String → ConnectResult
  createProducer : ProducerOptions → CreateProducerResult
  send : Producer → ProducerMessage → Option GoError
  subscribe : ConsumerOptions → SubscribeResult
  ack : Consumer → PulsarMessage → Option GoError
  flush : Producer → Option GoError

/-- The `HandleMessage` function type of `client.go`: the handler's answer for
a message (`none` is a nil error). -/
abbrev HandleMessage := PulsarMessage → Option GoError

/-- The `type2.HandleMessage` function type the connector is given: a handler
of application messages. -/
abbrev HandleDelayMessage := Message → Option GoError

/-- How a call ends: it returns a value or the goroutine panics. -/
inductive Outcome (α : Type) where
  | ret (a : α)
  | panic
  deriving DecidableEq, Repr

/-! ## Registries (Go maps keyed by topic) -/

/-- A Go `map[string]V` as an association list. -/
abbrev Registry (V : Type) := List (String × V)

/-- Map read `m[k]` with the comma-ok form: the value, or `none` if absent. -/
def Registry.get? {V : Type} (m : Registry V) (k : String) : Option V :=
  List.lookup k m

/-- Map write `m[k] = v`: overwrite the entry of `k` if there is one, add one
otherwise. -/
def Registry.set {V : Type} : Registry V → String → V → Registry V
  | [], k, v => [(k, v)]
  | (k0, v0) :: rest, k, v =>
    if k0 = k then (k, v) :: rest else (k0, v0) :: Registry.set rest k v

/-- The `Client` struct: the connection and the two registries. -/
structure Client where
  client : Conn
  producers : Registry Producer
  consumers : Registry Consumer
  deriving DecidableEq, Repr

/-! ## `client.go`: `Produce` -/

/-- What a call of `Produce` leaves behind: the client, the trace and the
returned error. -/
structure ProduceResult where
  client : Client
  trace : List Event
  err : Outcome (Option GoError)
  deriving DecidableEq, Repr

/-- The method `Client.Produce(ctx, topic, msg)`. The log call reads
`msg.Payload` first, so a nil `msg` panics there. -/
def Client.Produce (env : Env) (c : Client) (topic : String)
    (msg : Option ProducerMessage) : ProduceResult :=
  match msg with
  | none => ⟨c, [], .panic⟩
  | some m =>
    let t0 := [Event.log .debug "produce message to topic %s: %s"
      [.str topic, .bytes m.Payload]]
    match c.producers.get? topic with
    | none =>
      ⟨c, t0, .ret (some ("producer for topic [" ++ topic ++ "] not exists"))⟩
    | some produce =>
      let err := env.send produce m
      ⟨c, t0 ++ [Event.send produce m err], .ret err⟩

/-! ## `converter.go` -/

/-- The function `convertToPulsarProducerMessage`. -/
def convertToPulsarProducerMessage (msg : Message) : ProducerMessage :=
  { Payload := msg.Payload, Key := msg.Key }

/-- The function `convertPulsarMessageToDelayMessage`. -/
def convertPulsarMessageToDelayMessage (msg : PulsarMessage) : Message :=
  { Topic := msg.Topic, Key := msg.Key, Payload := msg.Payload }

/-! ## `connector.go`: `RealTimeQueue.Produce` -/

/-- The `RealTimeQueue` struct: the connector holds the client. -/
structure RealTimeQueue where
  pulsar : Client
  deriving DecidableEq, Repr

/-- The function `NewRealTimeQueue(client)`. -/
def NewRealTimeQueue (client : Client) : RealTimeQueue :=
  { pulsar := client }

/-- The method `RealTimeQueue.Produce(ctx, msg)`. A nil `msg` panics at
`msg.Payload`. -/
def RealTimeQueue.Produce (env : Env) (q : RealTimeQueue) (msg : Option Message) :
    ProduceResult :=
  match msg with
  | none => ⟨q.pulsar, [], .panic⟩
  | some m =>
    if m.Payload = none ∨ m.Payload.len = 0 then
      ⟨q.pulsar, [], .ret (some "message payload can not be empty")⟩
    else
      Client.Produce env q.pulsar m.Topic (some (convertToPulsarProducerMessage m))

/-- The method `RealTimeQueue.Close()`: it returns nil and calls nothing. -/
def RealTimeQueue.Close (_q : RealTimeQueue) : Option GoError :=
  none

/-! ## `client.go`: `NewConsumer` and the dispatch loop -/

/-- The method `Client.getConsumerName`: the error of `os.Hostname` is dropped
and an empty host name is replaced by `unknown`. -/
def Client.getConsumerName (env : Env) (topic group : String) : String :=
  let hostname := if env.hostname = "" then "unknown" else env.hostname
  topic ++ "-" ++ group ++ "-" ++ hostname

/-- The options `NewConsumer` passes to `client.Subscribe`. -/
def subscribeOptions (topic group consumerName : String) : ConsumerOptions :=
  { Topic := topic, SubscriptionName := group, Type_ := .Shared,
    Name := consumerName }

/-- A goroutine started by `NewConsumer`: the dispatch loop of `consumer`,
calling the handler `fn`. -/
structure DispatchLoop where
  consumer : Consumer
  fn : HandleMessage

/-- What a call of `NewConsumer` leaves behind: the client, the trace, the
goroutines started and the returned error. -/
structure NewConsumerResult where
  client : Client
  trace : List Event
  spawned : List DispatchLoop
  err : Option GoError

/-- The method `Client.NewConsumer(topic, group, fn)`. The deferred function
writes the registry entry when the method returns, which happens only on the
path where the subscription succeeded. -/
def Client.NewConsumer (env : Env) (c : Client) (topic group : String)
    (fn : HandleMessage) : NewConsumerResult :=
  if topic = "" ∨ group = "" then
    ⟨c, [], [], some "topic and group can not be empty"⟩
  else
    let consumerName := Client.getConsumerName env topic group
    match c.consumers.get? topic with
    | some _ =>
      ⟨c, [], [], some ("consumer for group [" ++ group ++ "] topic [" ++ topic
        ++ "]  already exists")⟩
    | none =>
      let opts := subscribeOptions topic group consumerName
      match env.subscribe opts with
      | .failed err =>
        ⟨c, [Event.subscribe opts (.failed err)], [],
          some ("create pulsar Consumer " ++ group ++ " failed: " ++ err)⟩
      | .ok consumer =>
        ⟨{ c with consumers := c.consumers.set topic consumer },
          [Event.subscribe opts (.ok consumer)], [⟨consumer, fn⟩], none⟩

/-- The method `RealTimeQueue.NewConsumer(topic, group, batchSize, fn)`: the
handler is wrapped so that it sees the converted message. -/
def RealTimeQueue.NewConsumer (env : Env) (q : RealTimeQueue) (topic group : String)
    (_batchSize : Int) (fn : HandleDelayMessage) : NewConsumerResult :=
  Client.NewConsumer env q.pulsar topic group
    (fun msg => fn (convertPulsarMessageToDelayMessage msg))

/-- The closure `ack` of `NewConsumer`: one `consumer.Ack` call; a failure is
logged and nothing else happens. -/
def ack (env : Env) (consumer : Consumer) (msg : PulsarMessage) : List Event :=
  match env.ack consumer msg with
  | none => [Event.ack consumer msg none]
  | some err =>
    [Event.ack consumer msg (some err),
     Event.log .error "ack message failed: %v, message msgId: %#v -- content: '%s'"
       [.err err, .int msg.EntryID, .bytes msg.Payload]]

/-- What `consumer.Receive` returned: a message (nil when there is none) and
an error. -/
structure ReceiveResult where
  msg : Option PulsarMessage
  err : Option GoError
  deriving DecidableEq, Repr

/-- What one pass through the body of the loop leaves behind: the trace, and
whether the loop goes on to its next pass (`ret ()`) or the goroutine panics.
The loop has no other exit. -/
structure IterResult where
  trace : List Event
  outcome : Outcome Unit
  deriving DecidableEq, Repr

/-- The part of the loop body after the receive-error check, for a message
that is not nil. -/
def dispatchMessage (env : Env) (consumer : Consumer) (fn : HandleMessage)
    (m : PulsarMessage) : List Event :=
  if m.RedeliveryCount > 3 then
    Event.log .error
        "message redelivery count exceed 3, message msgId: %#v -- content: '%s'"
        [.int m.EntryID, .bytes m.Payload]
      :: ack env consumer m
  else
    let t0 := [Event.log .debug "Received message msgId: %#v -- content: '%s'"
      [.int m.EntryID, .bytes m.Payload]]
    match fn m with
    | some err =>
      t0 ++ [Event.handle m (some err),
        Event.log .error
          "handle message failed: %v, message msgId: %#v -- content: '%s'"
          [.err err, .int m.EntryID, .bytes m.Payload]]
    | none => t0 ++ [Event.handle m none] ++ ack env consumer m

/-- One pass through the body of the dispatch loop, given what `Receive`
returns. When `Receive` fails the arguments of the log call are evaluated
first, and they call methods of `msg`; with a nil `msg` that is a nil
dereference. There is no `continue` after the log call, so control falls
through to `msg.RedeliveryCount()`. -/
def dispatchIteration (env : Env) (consumer : Consumer) (fn : HandleMessage)
    (r : ReceiveResult) : IterResult :=
  let t0 := [Event.receive consumer r.msg r.err]
  match r.err, r.msg with
  | some _, none => ⟨t0, .panic⟩
  | some _, some m =>
    ⟨t0 ++ [Event.log .error
        "receive message failed: %v, message msgId: %#v -- content: '%s'"
        [.int m.EntryID, .bytes m.Payload]]
      ++ dispatchMessage env consumer fn m, .ret ()⟩
  | none, none => ⟨t0, .panic⟩
  | none, some m => ⟨t0 ++ dispatchMessage env consumer fn m, .ret ()⟩

/-- The dispatch loop run against the next answers of `Receive`: one pass per
answer, stopping only at a panic. With the answers used up the loop is blocked
in `Receive`. -/
def dispatchLoop (env : Env) (consumer : Consumer) (fn : HandleMessage) :
    List ReceiveResult → IterResult
  | [] => ⟨[], .ret ()⟩
  | r :: rest =>
    match dispatchIteration env consumer fn r with
    | ⟨tr, .panic⟩ => ⟨tr, .panic⟩
    | ⟨tr, .ret ()⟩ =>
      let later := dispatchLoop env consumer fn rest
      ⟨tr ++ later.trace, later.outcome⟩

/-! ## `client.go`: `Close` -/

/-- The first loop of `Close`: flush, drop the answer, close. -/
def closeProducers (env : Env) : Registry Producer → List Event → List Event
  | [], tr => tr
  | (_, producer) :: rest, tr =>
    let tr1 := tr ++ [Event.flush producer (env.flush producer)]
    let tr2 := tr1 ++ [Event.closeProducer producer]
    closeProducers env rest tr2

/-- The second loop of `Close`. -/
def closeConsumers : Registry Consumer → List Event → List Event
  | [], tr => tr
  | (_, consumer) :: rest, tr =>
    closeConsumers rest (tr ++ [Event.closeConsumer consumer])

/-- The method `Client.Close()`: the trace of the calls it makes. The
registries are not emptied. -/
def Client.Close (env : Env) (c : Client) : List Event :=
  let tr1 := closeProducers env c.producers []
  let tr2 := closeConsumers c.consumers tr1
  tr2 ++ [Event.closeClient c.client]

/-! ## `client.go`: `New` -/

/-- Wrap-around of `int64` arithmetic. -/
def wrapInt64 (i : Int) : Int :=
  (i + 2 ^ 63) % 2 ^ 64 - 2 ^ 63

/-- Wrap-around of `uint` arithmetic (64-bit platform). -/
def wrapUint (n : Nat) : Nat :=
  n % 2 ^ 64

/-- Ten seconds as a `time.Duration`. -/
def tenSeconds : Int := 10 * 1000000000

/-- The producer options `New` builds from a configuration entry. -/
def producerOptions (pc : ProducerConfig) : ProducerOptions :=
  { Topic := pc.Topic
    Name := ""
    SendTimeout := tenSeconds
    CompressionType := .ZSTD
    BatchingMaxPublishDelay :=
      wrapInt64 (wrapInt64 (pc.BatchingMaxPublishDelay : Int) * 1000000)
    BatchingMaxMessages := pc.BatchingMaxMessages
    BatchingMaxSize := wrapUint (pc.BatchingMaxSize * 1024) }

/-- The loop of `New` that creates the configured producers; a failure
panics. -/
def createProducers (env : Env) :
    List ProducerConfig → Client → List Event → List Event × Outcome Client
  | [], client, tr => (tr, .ret client)
  | pc :: rest, client, tr =>
    let po := producerOptions pc
    match env.createProducer po with
    | .failed err =>
      (tr ++ [Event.createProducer po (.failed err),
        Event.log .error "create pulsar Producer %s failed: %v"
          [.str pc.Topic, .err err]], .panic)
    | .ok producer =>
      createProducers env rest
        { client with producers := client.producers.set pc.Topic producer }
        (tr ++ [Event.createProducer po (.ok producer)])

/-- The function `New(config)`: connect, then create every configured
producer; both registries start empty. -/
def New (env : Env) (config : PulsarConfig) : List Event × Outcome Client :=
  let t0 := [Event.log .info "create pulsar client: %+v" [.str config.URL]]
  match env.newClient config.URL with
  | .failed err =>
    (t0 ++ [Event.newClient config.URL (.failed err),
      Event.log .error "create pulsar client failed: %v" [.err err]], .panic)
  | .ok conn =>
    createProducers env config.ProducersConfig
      { client := conn, producers := [], consumers := [] }
      (t0 ++ [Event.newClient config.URL (.ok conn)])

/-- The client states that calls of the package can produce: what `New`
returns, and what `NewConsumer` and `Produce` leave behind. -/
inductive Reachable : Client → Prop where
  | new (env : Env) (config : PulsarConfig) (c : Client)
      (h : (New env config).2 = .ret c) : Reachable c
  | newConsumer (env : Env) (c : Client) (topic group : String)
      (fn : HandleMessage) (h : Reachable c) :
      Reachable (Client.NewConsumer env c topic group fn).client
  | produce (env : Env) (c : Client) (topic : String)
      (msg : Option ProducerMessage) (h : Reachable c) :
      Reachable (Client.Produce env c topic msg).client

/-! ## Reading traces -/

/-- The acknowledgements recorded in a trace. -/
def ackCalls : List Event → List (Consumer × PulsarMessage)
  | [] => []
  | Event.ack c m _ :: rest => (c, m) :: ackCalls rest
  | _ :: rest => ackCalls rest

/-- The handler calls recorded in a trace. -/
def handlerCalls : List Event → List PulsarMessage
  | [] => []
  | Event.handle m _ :: rest => m :: handlerCalls rest
  | _ :: rest => handlerCalls rest

/-- The subscriptions recorded in a trace. -/
def subscribeCalls : List Event → List ConsumerOptions
  | [] => []
  | Event.subscribe o _ :: rest => o :: subscribeCalls rest
  | _ :: rest => subscribeCalls rest


/-- The sends recorded in a trace. -/
def sendCalls : List Event → List (Producer × ProducerMessage)
  | [] => []
  | Event.send p m _ :: rest => (p, m) :: sendCalls rest
  | _ :: rest => sendCalls rest

/-- Whether an event is a call to the broker (anything but a log line or a
handler call). -/
def Event.isBrokerCall : Event → Bool
  | .log _ _ _ => false
  | .handle _ _ => false
  | _ => true

/-- The broker calls recorded in a trace. -/
def brokerCalls (tr : List Event) : List Event :=
  tr.filter Event.isBrokerCall

/-- The topics that have an entry in a registry. -/
def Registry.keys {V : Type} (m : Registry V) : List String :=
  m.map Prod.fst

/-! ## Sample inputs -/

/-- A broker that accepts everything and hands out fixed handles. -/
def okEnv : Env :=
  { hostname := "host-1"
    newClient := fun _ => .ok ⟨0⟩
    createProducer := fun _ => .ok ⟨1⟩
    send := fun _ _ => none
    subscribe := fun _ => .ok ⟨7⟩
    ack := fun _ _ => none
    flush := fun _ => none }

/-- A broker on which every flush and every acknowledgement fails. -/
def failingEnv : Env :=
  { okEnv with
    ack := fun _ _ => some "ack timeout"
    flush := fun _ => some "flush timeout" }

/-- A configuration with one producer, on topic `orders`. -/
def ordersConfig : PulsarConfig :=
  { URL := "pulsar://localhost:6650"
    ProducersConfig :=
      [{ Topic := "orders", BatchingMaxPublishDelay := 10,
         BatchingMaxMessages := 10, BatchingMaxSize := 128 }] }

/-- The client `New` returns for `ordersConfig`. -/
def ordersClient : Client :=
  { client := ⟨0⟩, producers := [("orders", ⟨1⟩)], consumers := [] }

/-- The client after a consumer was registered on topic `orders`. -/
def subscribedClient : Client :=
  { client := ⟨0⟩, producers := [("orders", ⟨1⟩)], consumers := [("orders", ⟨7⟩)] }

/-- A broker that refuses every subscription. -/
def rejectingEnv : Env :=
  { okEnv with subscribe := fun _ => .failed "topic not found" }

/-- A handler that accepts every message. -/
def okHandler : HandleMessage := fun _ => none

/-- A handler that rejects every message. -/
def failingHandler : HandleMessage := fun _ => some "cannot process"

/-- A received message with the given redelivery count. -/
def sampleMessage (redelivery : Nat) : PulsarMessage :=
  { Topic := "orders", Key := "k1", Payload := some [104, 105],
    RedeliveryCount := redelivery, EntryID := 42 }

/-! ## Registry lemmas -/

/-- A map read finds nothing exactly when the key has no entry. -/
theorem Registry.get?_eq_none_iff {V : Type} (m : Registry V) (k : String) :
    m.get? k = none ↔ k ∉ m.keys := by
  induction m with
  | nil => simp [Registry.get?, Registry.keys]
  | cons e rest ih =>
    obtain ⟨k0, v0⟩ := e
    simp only [Registry.get?, Registry.keys] at ih ⊢
    by_cases hk : k = k0
    · subst hk
      simp [List.lookup_cons]
    · have hb : (k == k0) = false := by simpa using hk
      simp [List.lookup_cons, hb, hk, ih]

/-- A map read after a write of the same key finds the written value. -/
theorem Registry.get?_set_self {V : Type} (m : Registry V) (k : String) (v : V) :
    (m.set k v).get? k = some v := by
  induction m with
  | nil => simp [Registry.set, Registry.get?, List.lookup_cons]
  | cons e rest ih =>
    obtain ⟨k0, v0⟩ := e
    by_cases hk : k0 = k
    · simp [Registry.set, hk, Registry.get?, List.lookup_cons]
    · have hb : (k == k0) = false := by simpa using fun h => hk h.symm
      simp only [Registry.get?] at ih
      simp [Registry.set, hk, Registry.get?, List.lookup_cons, hb, ih]

/-- A map write leaves the reads of every other key as they were. -/
theorem Registry.get?_set_other {V : Type} (m : Registry V) (k k1 : String) (v : V)
    (hne : k1 ≠ k) : (m.set k v).get? k1 = m.get? k1 := by
  induction m with
  | nil =>
    have hb : (k1 == k) = false := by simpa using hne
    simp [Registry.set, Registry.get?, List.lookup_cons, hb]
  | cons e rest ih =>
    obtain ⟨k0, v0⟩ := e
    simp only [Registry.get?] at ih
    by_cases hk : k0 = k
    · subst hk
      have hb : (k1 == k0) = false := by simpa using hne
      simp [Registry.set, Registry.get?, List.lookup_cons, hb]
    · by_cases hk1 : k1 = k0
      · subst hk1
        simp [Registry.set, hk, Registry.get?, List.lookup_cons]
      · have hb : (k1 == k0) = false := by simpa using hk1
        simp [Registry.set, hk, Registry.get?, List.lookup_cons, hb, ih]

/-! ## `Produce` -/

/-- C1: for every client state, every topic `T` with no entry in the producer
registry and every message, `Client.Produce` returns the non-nil error
"producer for topic [T] not exists", makes no send call (no broker call at
all) and leaves both registries as they were. -/
theorem produce_unregistered_topic (env : Env) (c : Client) (T : String)
    (msg : ProducerMessage) (hT : T ∉ c.producers.keys) :
    (Client.Produce env c T (some msg)).err
        = .ret (some ("producer for topic [" ++ T ++ "] not exists"))
      ∧ sendCalls (Client.Produce env c T (some msg)).trace = []
      ∧ brokerCalls (Client.Produce env c T (some msg)).trace = []
      ∧ (Client.Produce env c T (some msg)).client.producers = c.producers
      ∧ (Client.Produce env c T (some msg)).client.consumers = c.consumers := by
  have hnone : c.producers.get? T = none :=
    (Registry.get?_eq_none_iff c.producers T).mpr hT
  simp [Client.Produce, hnone, sendCalls, brokerCalls, Event.isBrokerCall]

/-- Witness of C1: topic `invoices` on a client whose only producer is on
topic `orders`. -/
theorem produce_unregistered_topic_witness :
    "invoices" ∉ ordersClient.producers.keys
      ∧ (Client.Produce okEnv ordersClient "invoices" (some ⟨some [120], "k"⟩)).err
          = .ret (some ("producer for topic [" ++ "invoices" ++ "] not exists"))
      ∧ sendCalls
          (Client.Produce okEnv ordersClient "invoices" (some ⟨some [120], "k"⟩)).trace
          = [] :=
  have h : "invoices" ∉ ordersClient.producers.keys := by decide
  ⟨h, (produce_unregistered_topic okEnv ordersClient "invoices" ⟨some [120], "k"⟩ h).1,
    (produce_unregistered_topic okEnv ordersClient "invoices" ⟨some [120], "k"⟩ h).2.1⟩

/-- C2: for every message whose payload is nil or has length 0,
`RealTimeQueue.Produce` returns the error "message payload can not be empty"
with an empty trace, whatever the topic and the client state: `Client.Produce`,
whose first statement is a log call and whose second is the registry lookup, is
never entered, and nothing is sent. -/
theorem produce_empty_payload (env : Env) (q : RealTimeQueue) (m : Message)
    (hp : m.Payload = none ∨ m.Payload.len = 0) :
    RealTimeQueue.Produce env q (some m)
      = ⟨q.pulsar, [], .ret (some "message payload can not be empty")⟩ := by
  simp [RealTimeQueue.Produce, hp]

/-- Witness of C2: an empty, non-nil payload sent to a topic that has a
producer. -/
theorem produce_empty_payload_witness :
    ((⟨"orders", "k", some []⟩ : Message).Payload = none
        ∨ (⟨"orders", "k", some []⟩ : Message).Payload.len = 0)
      ∧ ordersClient.producers.get? "orders" = some ⟨1⟩
      ∧ RealTimeQueue.Produce okEnv (NewRealTimeQueue ordersClient)
            (some ⟨"orders", "k", some []⟩)
          = ⟨ordersClient, [], .ret (some "message payload can not be empty")⟩ :=
  ⟨by decide, by decide,
    produce_empty_payload okEnv (NewRealTimeQueue ordersClient)
      ⟨"orders", "k", some []⟩ (by decide)⟩

/-! ## `NewConsumer` -/

/-- The loop of `New` does not touch the consumer registry. -/
theorem createProducers_consumers (env : Env) (pcs : List ProducerConfig)
    (c0 c : Client) (tr : List Event)
    (h : (createProducers env pcs c0 tr).2 = .ret c) :
    c.consumers = c0.consumers := by
  induction pcs generalizing c0 tr with
  | nil =>
    simp only [createProducers, Outcome.ret.injEq] at h
    rw [← h]
  | cons pc rest ih =>
    simp only [createProducers] at h
    cases hcp : env.createProducer (producerOptions pc) with
    | failed err => simp [hcp] at h
    | ok producer =>
      rw [hcp] at h
      have hrest := ih _ _ h
      simpa using hrest

/-- A client that `New` returns has no consumer registered. -/
theorem New_consumers (env : Env) (config : PulsarConfig) (c : Client)
    (h : (New env config).2 = .ret c) : c.consumers = [] := by
  simp only [New] at h
  cases hn : env.newClient config.URL with
  | failed err => simp [hn] at h
  | ok conn =>
    rw [hn] at h
    exact createProducers_consumers env _ _ c _ h

/-- In every reachable client state the empty topic has no consumer: only
`NewConsumer` writes the consumer registry, and it rejects the empty topic. -/
theorem Reachable.no_empty_topic {c : Client} (h : Reachable c) :
    c.consumers.get? "" = none := by
  induction h with
  | new env config c h =>
    rw [New_consumers env config c h]
    rfl
  | newConsumer env c topic group fn _ ih =>
    by_cases he : topic = "" ∨ group = ""
    · simpa [Client.NewConsumer, he] using ih
    · simp only [Client.NewConsumer, he, if_false]
      have ht : "" ≠ topic := fun h => he (Or.inl h.symm)
      cases hg : c.consumers.get? topic with
      | some _ => simpa using ih
      | none =>
        cases hs : env.subscribe
            (subscribeOptions topic group (Client.getConsumerName env topic group)) with
        | failed err => simpa using ih
        | ok consumer =>
          simp only
          rw [Registry.get?_set_other _ _ _ _ ht]
          exact ih
  | produce env c topic msg _ ih =>
    cases msg with
    | none => simpa [Client.Produce] using ih
    | some m =>
      simp only [Client.Produce]
      cases c.producers.get? topic <;> simpa using ih

/-- C9: whenever the topic or the group is the empty string, `NewConsumer`
returns the error "topic and group can not be empty", calls nothing (no
subscribe), starts no dispatch loop and leaves the client as it was; this holds
in every client state, so also when the topic already has a consumer. The same
holds for the connector method `RealTimeQueue.NewConsumer`. -/
theorem newConsumer_empty_argument (env : Env) (c : Client) (topic group : String)
    (fn : HandleMessage) (batchSize : Int) (gn : HandleDelayMessage)
    (he : topic = "" ∨ group = "") :
    (Client.NewConsumer env c topic group fn).err
        = some "topic and group can not be empty"
      ∧ (Client.NewConsumer env c topic group fn).trace = []
      ∧ (Client.NewConsumer env c topic group fn).spawned = []
      ∧ (Client.NewConsumer env c topic group fn).client = c
      ∧ (RealTimeQueue.NewConsumer env ⟨c⟩ topic group batchSize gn).err
        = some "topic and group can not be empty"
      ∧ (RealTimeQueue.NewConsumer env ⟨c⟩ topic group batchSize gn).trace = []
      ∧ (RealTimeQueue.NewConsumer env ⟨c⟩ topic group batchSize gn).spawned = []
      ∧ (RealTimeQueue.NewConsumer env ⟨c⟩ topic group batchSize gn).client = c := by
  simp [RealTimeQueue.NewConsumer, Client.NewConsumer, he]

/-- Witness of C9: an empty group on a topic that already has a consumer gives
the empty-argument error, not the already-exists error. -/
theorem newConsumer_empty_argument_witness :
    ("orders" = "" ∨ "" = "")
      ∧ subscribedClient.consumers.get? "orders" = some ⟨7⟩
      ∧ (Client.NewConsumer okEnv subscribedClient "orders" "" okHandler).err
          = some "topic and group can not be empty"
      ∧ (Client.NewConsumer okEnv subscribedClient "orders" "" okHandler).trace = [] :=
  have he : "orders" = "" ∨ "" = "" := Or.inr rfl
  ⟨he, by decide,
    (newConsumer_empty_argument okEnv subscribedClient "orders" "" okHandler 1
      (fun _ => none) he).1,
    (newConsumer_empty_argument okEnv subscribedClient "orders" "" okHandler 1
      (fun _ => none) he).2.1⟩

/-- C3: in every reachable client state, for every topic `T` that has an entry
in the consumer registry and every non-empty group `G` (whatever group the
entry was registered with), `NewConsumer` returns the error "consumer for group
[G] topic [T]  already exists", calls nothing (no subscribe), starts no
dispatch loop and leaves the client, so also the entry of `T`, as it was. -/
theorem newConsumer_already_exists (env : Env) (c : Client) (T G : String)
    (fn : HandleMessage) (hc : Reachable c) (hT : T ∈ c.consumers.keys)
    (hG : G ≠ "") :
    (Client.NewConsumer env c T G fn).err
        = some ("consumer for group [" ++ G ++ "] topic [" ++ T ++ "]  already exists")
      ∧ (Client.NewConsumer env c T G fn).trace = []
      ∧ subscribeCalls (Client.NewConsumer env c T G fn).trace = []
      ∧ (Client.NewConsumer env c T G fn).spawned = []
      ∧ (Client.NewConsumer env c T G fn).client = c := by
  have hsome : c.consumers.get? T ≠ none := fun h =>
    (Registry.get?_eq_none_iff c.consumers T).mp h hT
  have hne : T ≠ "" := by
    intro h
    rw [h] at hsome
    exact hsome hc.no_empty_topic
  have he : ¬ (T = "" ∨ G = "") := by
    rintro (h | h)
    · exact hne h
    · exact hG h
  cases hg : c.consumers.get? T with
  | none => exact absurd hg hsome
  | some h0 => simp [Client.NewConsumer, he, hg, subscribeCalls]

/-- Witness of C3: a second registration on topic `orders`, under another
group, on the client reached by `New` and one successful `NewConsumer`. -/
theorem newConsumer_already_exists_witness :
    Reachable subscribedClient
      ∧ "orders" ∈ subscribedClient.consumers.keys
      ∧ (Client.NewConsumer okEnv subscribedClient "orders" "g2" okHandler).err
          = some ("consumer for group [" ++ "g2" ++ "] topic [" ++ "orders"
              ++ "]  already exists")
      ∧ (Client.NewConsumer okEnv subscribedClient "orders" "g2" okHandler).client
          = subscribedClient :=
  have h0 : Reachable ordersClient :=
    Reachable.new okEnv ordersConfig ordersClient (by decide)
  have h1 : (Client.NewConsumer okEnv ordersClient "orders" "g1" okHandler).client
      = subscribedClient := by decide
  have h2 : Reachable subscribedClient :=
    h1 ▸ Reachable.newConsumer okEnv ordersClient "orders" "g1" okHandler h0
  have h3 : "orders" ∈ subscribedClient.consumers.keys := by decide
  have h4 : "g2" ≠ "" := by decide
  ⟨h2, h3,
    (newConsumer_already_exists okEnv subscribedClient "orders" "g2" okHandler
      h2 h3 h4).1,
    (newConsumer_already_exists okEnv subscribedClient "orders" "g2" okHandler
      h2 h3 h4).2.2.2.2⟩

/-- C10: for every non-empty topic `T` with no entry in the consumer registry
and every non-empty group `G`, `NewConsumer` makes exactly one subscribe call
(shared type, topic `T`, subscription `G`). If the broker answers with a handle
`h`, the call returns nil, the consumer registry then maps `T` to `h` and every
other topic to what it mapped to before, the producer registry and the
connection are as before, and exactly one dispatch loop, on `h` with the given
handler, is started. If the broker answers with an error, the call returns an
error, the client is as before and no dispatch loop is started. -/
theorem newConsumer_fresh_topic (env : Env) (c : Client) (T G : String)
    (fn : HandleMessage) (hT : T ≠ "") (hG : G ≠ "")
    (hfree : T ∉ c.consumers.keys) :
    (∀ h : Consumer,
        env.subscribe (subscribeOptions T G (Client.getConsumerName env T G)) = .ok h →
        (Client.NewConsumer env c T G fn).err = none
          ∧ (Client.NewConsumer env c T G fn).client.consumers.get? T = some h
          ∧ (∀ T1 : String, T1 ≠ T →
              (Client.NewConsumer env c T G fn).client.consumers.get? T1
                = c.consumers.get? T1)
          ∧ (Client.NewConsumer env c T G fn).client.producers = c.producers
          ∧ (Client.NewConsumer env c T G fn).client.client = c.client
          ∧ (Client.NewConsumer env c T G fn).spawned = [⟨h, fn⟩]
          ∧ (Client.NewConsumer env c T G fn).trace
              = [Event.subscribe
                  (subscribeOptions T G (Client.getConsumerName env T G)) (.ok h)])
      ∧ (∀ e : GoError,
        env.subscribe (subscribeOptions T G (Client.getConsumerName env T G))
          = .failed e →
        (Client.NewConsumer env c T G fn).err
            = some ("create pulsar Consumer " ++ G ++ " failed: " ++ e)
          ∧ (Client.NewConsumer env c T G fn).client = c
          ∧ (Client.NewConsumer env c T G fn).spawned = []
          ∧ (Client.NewConsumer env c T G fn).trace
              = [Event.subscribe
                  (subscribeOptions T G (Client.getConsumerName env T G))
                  (.failed e)]) := by
  have he : ¬ (T = "" ∨ G = "") := by
    rintro (h | h)
    · exact hT h
    · exact hG h
  have hnone : c.consumers.get? T = none :=
    (Registry.get?_eq_none_iff c.consumers T).mpr hfree
  refine ⟨?_, ?_⟩
  · intro h hs
    simp only [Client.NewConsumer, he, if_false, hnone, hs, true_and, and_true]
    refine ⟨Registry.get?_set_self _ _ _, ?_⟩
    intro T1 hne
    exact Registry.get?_set_other _ _ _ _ hne
  · intro e hs
    simp [Client.NewConsumer, he, hnone, hs]

/-- Witness of C10: a first registration on topic `orders`, once with a broker
that accepts the subscription and once with a broker that refuses it. -/
theorem newConsumer_fresh_topic_witness :
    ("orders" ≠ "" ∧ "g1" ≠ "" ∧ "orders" ∉ ordersClient.consumers.keys)
      ∧ ((Client.NewConsumer okEnv ordersClient "orders" "g1" okHandler).err = none
        ∧ (Client.NewConsumer okEnv ordersClient "orders" "g1"
            okHandler).client.consumers.get? "orders" = some ⟨7⟩
        ∧ (Client.NewConsumer okEnv ordersClient "orders" "g1" okHandler).spawned
            = [⟨⟨7⟩, okHandler⟩])
      ∧ ((Client.NewConsumer rejectingEnv ordersClient "orders" "g1" okHandler).err
            = some ("create pulsar Consumer " ++ "g1" ++ " failed: " ++ "topic not found")
        ∧ (Client.NewConsumer rejectingEnv ordersClient "orders" "g1" okHandler).client
            = ordersClient
        ∧ (Client.NewConsumer rejectingEnv ordersClient "orders" "g1" okHandler).spawned
            = []) :=
  have hT : "orders" ≠ "" := by decide
  have hG : "g1" ≠ "" := by decide
  have hfree : "orders" ∉ ordersClient.consumers.keys := by decide
  have hok := (newConsumer_fresh_topic okEnv ordersClient "orders" "g1" okHandler
    hT hG hfree).1 ⟨7⟩ rfl
  have hfail := (newConsumer_fresh_topic rejectingEnv ordersClient "orders" "g1"
    okHandler hT hG hfree).2 "topic not found" rfl
  ⟨⟨hT, hG, hfree⟩, ⟨hok.1, hok.2.1, hok.2.2.2.2.2.1⟩,
    ⟨hfail.1, hfail.2.1, hfail.2.2.1⟩⟩

/-! ## The dispatch loop -/

/-- The closure `ack` makes exactly one `Ack` call, whatever the answer. -/
theorem ackCalls_ack (env : Env) (consumer : Consumer) (m : PulsarMessage) :
    ackCalls (ack env consumer m) = [(consumer, m)] := by
  unfold ack
  cases env.ack consumer m <;> simp [ackCalls]

/-- The closure `ack` does not call the handler. -/
theorem handlerCalls_ack (env : Env) (consumer : Consumer) (m : PulsarMessage) :
    handlerCalls (ack env consumer m) = [] := by
  unfold ack
  cases env.ack consumer m <;> simp [handlerCalls]

/-- The acknowledgements of a trace made of two parts. -/
theorem ackCalls_append (t1 t2 : List Event) :
    ackCalls (t1 ++ t2) = ackCalls t1 ++ ackCalls t2 := by
  induction t1 with
  | nil => rfl
  | cons e rest ih => cases e <;> simp [ackCalls, ih]

/-- The handler calls of a trace made of two parts. -/
theorem handlerCalls_append (t1 t2 : List Event) :
    handlerCalls (t1 ++ t2) = handlerCalls t1 ++ handlerCalls t2 := by
  induction t1 with
  | nil => rfl
  | cons e rest ih => cases e <;> simp [handlerCalls, ih]

/-- C4: in one pass of the dispatch loop over a successfully received message
`m`: if the redelivery count of `m` is greater than 3, `m` is acknowledged
exactly once and the handler is not called; if it is at most 3, the handler is
called, once, with `m`. -/
theorem dispatch_redelivery_threshold (env : Env) (consumer : Consumer)
    (fn : HandleMessage) (m : PulsarMessage) :
    (m.RedeliveryCount > 3 →
        ackCalls (dispatchIteration env consumer fn ⟨some m, none⟩).trace
            = [(consumer, m)]
          ∧ handlerCalls (dispatchIteration env consumer fn ⟨some m, none⟩).trace = [])
      ∧ (m.RedeliveryCount ≤ 3 →
        handlerCalls (dispatchIteration env consumer fn ⟨some m, none⟩).trace = [m]) := by
  refine ⟨?_, ?_⟩
  · intro h
    simp [dispatchIteration, dispatchMessage, h, ackCalls, handlerCalls,
      ackCalls_ack, handlerCalls_ack]
  · intro h
    have h3 : ¬ m.RedeliveryCount > 3 := Nat.not_lt.mpr h
    simp only [dispatchIteration, dispatchMessage, h3, if_false]
    cases fn m <;>
      simp [handlerCalls, handlerCalls_append, handlerCalls_ack]

/-- Witness of C4: redelivery count 4 is acknowledged without a handler call,
redelivery count 3 reaches the handler. -/
theorem dispatch_redelivery_threshold_witness :
    ((sampleMessage 4).RedeliveryCount > 3 ∧ (sampleMessage 3).RedeliveryCount ≤ 3)
      ∧ (ackCalls (dispatchIteration okEnv ⟨7⟩ okHandler
            ⟨some (sampleMessage 4), none⟩).trace = [(⟨7⟩, sampleMessage 4)]
        ∧ handlerCalls (dispatchIteration okEnv ⟨7⟩ okHandler
            ⟨some (sampleMessage 4), none⟩).trace = [])
      ∧ handlerCalls (dispatchIteration okEnv ⟨7⟩ okHandler
            ⟨some (sampleMessage 3), none⟩).trace = [sampleMessage 3] :=
  have h4 : (sampleMessage 4).RedeliveryCount > 3 := by decide
  have h3 : (sampleMessage 3).RedeliveryCount ≤ 3 := by decide
  ⟨⟨h4, h3⟩,
    (dispatch_redelivery_threshold okEnv ⟨7⟩ okHandler (sampleMessage 4)).1 h4,
    (dispatch_redelivery_threshold okEnv ⟨7⟩ okHandler (sampleMessage 3)).2 h3⟩

/-- C5: in one pass of the dispatch loop over a successfully received message
`m` with redelivery count at most 3, the handler is called exactly once, with
`m`; there is exactly one `Ack` call, for `m`, when the handler returns nil and
none when it returns an error, whatever the broker answers to the `Ack`; and in
both cases the pass ends without a panic and the loop goes on with the next
answer of `Receive`. -/
theorem dispatch_ack_iff_handled (env : Env) (consumer : Consumer)
    (fn : HandleMessage) (m : PulsarMessage) (h : m.RedeliveryCount ≤ 3) :
    handlerCalls (dispatchIteration env consumer fn ⟨some m, none⟩).trace = [m]
      ∧ ackCalls (dispatchIteration env consumer fn ⟨some m, none⟩).trace
          = (if fn m = none then [(consumer, m)] else [])
      ∧ (dispatchIteration env consumer fn ⟨some m, none⟩).outcome = .ret ()
      ∧ ∀ rest : List ReceiveResult,
          dispatchLoop env consumer fn (⟨some m, none⟩ :: rest)
            = ⟨(dispatchIteration env consumer fn ⟨some m, none⟩).trace
                ++ (dispatchLoop env consumer fn rest).trace,
               (dispatchLoop env consumer fn rest).outcome⟩ := by
  have h3 : ¬ m.RedeliveryCount > 3 := Nat.not_lt.mpr h
  refine ⟨?_, ?_, ?_, ?_⟩
  · simp only [dispatchIteration, dispatchMessage, h3, if_false]
    cases fn m <;>
      simp [handlerCalls, handlerCalls_append, handlerCalls_ack]
  · simp only [dispatchIteration, dispatchMessage, h3, if_false]
    cases fn m <;>
      simp [ackCalls, ackCalls_append, ackCalls_ack]
  · simp [dispatchIteration]
  · intro rest
    simp [dispatchLoop, dispatchIteration]

/-- Witness of C5: with a broker on which every `Ack` fails, an accepted
message is acknowledged once and a rejected one not at all. -/
theorem dispatch_ack_iff_handled_witness :
    (sampleMessage 0).RedeliveryCount ≤ 3
      ∧ ackCalls (dispatchIteration failingEnv ⟨7⟩ okHandler
            ⟨some (sampleMessage 0), none⟩).trace
          = (if okHandler (sampleMessage 0) = none then [(⟨7⟩, sampleMessage 0)] else [])
      ∧ ackCalls (dispatchIteration failingEnv ⟨7⟩ failingHandler
            ⟨some (sampleMessage 0), none⟩).trace
          = (if failingHandler (sampleMessage 0) = none then [(⟨7⟩, sampleMessage 0)]
              else []) :=
  have h0 : (sampleMessage 0).RedeliveryCount ≤ 3 := by decide
  ⟨h0,
    (dispatch_ack_iff_handled failingEnv ⟨7⟩ okHandler (sampleMessage 0) h0).2.1,
    (dispatch_ack_iff_handled failingEnv ⟨7⟩ failingHandler (sampleMessage 0) h0).2.1⟩

/-- C8, the code at the failing input: when `Receive` returns an error and no
message, the pass ends in a panic (the log call dereferences the nil message);
the handler is not called, nothing is acknowledged, and the loop does not go on
to any later answer of `Receive`. -/
theorem dispatch_receive_error_panics (env : Env) (consumer : Consumer)
    (fn : HandleMessage) (err : GoError) (rest : List ReceiveResult) :
    dispatchIteration env consumer fn ⟨none, some err⟩
        = ⟨[Event.receive consumer none (some err)], .panic⟩
      ∧ handlerCalls (dispatchIteration env consumer fn ⟨none, some err⟩).trace = []
      ∧ ackCalls (dispatchIteration env consumer fn ⟨none, some err⟩).trace = []
      ∧ dispatchLoop env consumer fn (⟨none, some err⟩ :: rest)
        = ⟨[Event.receive consumer none (some err)], .panic⟩ := by
  simp [dispatchLoop, dispatchIteration, handlerCalls, ackCalls]

/-! ## `Close` -/

/-- The first loop of `Close` appends a flush and a close per producer. -/
theorem closeProducers_eq (env : Env) (ps : Registry Producer) (tr : List Event) :
    closeProducers env ps tr
      = tr ++ ps.flatMap fun e =>
          [Event.flush e.2 (env.flush e.2), Event.closeProducer e.2] := by
  induction ps generalizing tr with
  | nil => simp [closeProducers]
  | cons e rest ih =>
    obtain ⟨k, p⟩ := e
    simp [closeProducers, ih]

/-- The second loop of `Close` appends a close per consumer. -/
theorem closeConsumers_eq (cs : Registry Consumer) (tr : List Event) :
    closeConsumers cs tr = tr ++ cs.map fun e => Event.closeConsumer e.2 := by
  induction cs generalizing tr with
  | nil => simp [closeConsumers]
  | cons e rest ih =>
    obtain ⟨k, c⟩ := e
    simp [closeConsumers, ih]

/-- C6: for every client state and every answer the broker gives to the
flushes, the trace of `Close` is: for each producer in turn a `Flush`
immediately followed by its `Close`; then one `Close` per consumer; then one
`Close` of the connection, last. A failing flush changes nothing in the calls
that follow. -/
theorem close_trace (env : Env) (c : Client) :
    Client.Close env c
      = (c.producers.flatMap fun e =>
            [Event.flush e.2 (env.flush e.2), Event.closeProducer e.2])
          ++ (c.consumers.map fun e => Event.closeConsumer e.2)
          ++ [Event.closeClient c.client] := by
  simp [Client.Close, closeProducers_eq, closeConsumers_eq]

/-! ## The converter -/

/-- C7 as stated fails: the producer message keeps no topic, so two messages on
different topics convert to the same producer message, and no way of turning
producer messages into received messages lets the conversion back recover the
topic of every message. -/
theorem convert_roundtrip_loses_topic :
    convertToPulsarProducerMessage ⟨"orders", "k1", some [120]⟩
        = convertToPulsarProducerMessage ⟨"invoices", "k1", some [120]⟩
      ∧ ¬ ∃ deliver : ProducerMessage → PulsarMessage, ∀ m : Message,
          (convertPulsarMessageToDelayMessage
            (deliver (convertToPulsarProducerMessage m))).Topic = m.Topic := by
  refine ⟨rfl, ?_⟩
  rintro ⟨deliver, h⟩
  have h1 := h ⟨"orders", "k1", some [120]⟩
  have h2 := h ⟨"invoices", "k1", some [120]⟩
  simp only [convertToPulsarProducerMessage] at h1 h2
  rw [h1] at h2
  exact absurd h2 (by decide)

/-- C7, amended: for every application message `m` and every received message
`n` that carries the key and the payload of the producer message made from `m`,
converting `n` back gives a message with the key and the payload bytes of `m`;
its topic is the topic `n` reports, so it is the topic of `m` exactly when `n`
was delivered on that topic. -/
theorem convert_roundtrip_key_payload (m : Message) (n : PulsarMessage)
    (hk : n.Key = (convertToPulsarProducerMessage m).Key)
    (hp : n.Payload = (convertToPulsarProducerMessage m).Payload) :
    (convertPulsarMessageToDelayMessage n).Key = m.Key
      ∧ (convertPulsarMessageToDelayMessage n).Payload = m.Payload
      ∧ (convertPulsarMessageToDelayMessage n).Topic = n.Topic
      ∧ ((convertPulsarMessageToDelayMessage n).Topic = m.Topic ↔ n.Topic = m.Topic) := by
  simp [convertPulsarMessageToDelayMessage, convertToPulsarProducerMessage] at *
  exact ⟨hk, hp⟩

/-- Witness of the amended C7: a message produced on topic `orders` and
delivered with the same key and payload. -/
theorem convert_roundtrip_key_payload_witness :
    (sampleMessage 0).Key
        = (convertToPulsarProducerMessage ⟨"orders", "k1", some [104, 105]⟩).Key
      ∧ (convertPulsarMessageToDelayMessage (sampleMessage 0)).Key = "k1"
      ∧ (convertPulsarMessageToDelayMessage (sampleMessage 0)).Payload
          = some [104, 105] :=
  ⟨rfl,
    (convert_roundtrip_key_payload ⟨"orders", "k1", some [104, 105]⟩ (sampleMessage 0)
      rfl rfl).1,
    (convert_roundtrip_key_payload ⟨"orders", "k1", some [104, 105]⟩ (sampleMessage 0)
      rfl rfl).2.1⟩

end Pulsar
